import Mathlib

/-!
Verification of the parameter-validation and auto-sizing core of the
`mactoast` library (`src/mactoast/_runner.py`).

Python floats are modelled as exact rationals (`ℚ`); the arithmetic of the
auto-sizer and the validators is plain arithmetic and comparison, so `ℚ`
captures it exactly at the precision the spec speaks about.  Python's
`int(x)` truncation toward zero is modelled by `pyTrunc`, and Python's
floor division `//` by `Int.fdiv`.  Fallible validators are modelled as
`Except Err Unit` where `Err` is an inductive with one constructor per
`ToastConfigError` raise-site relevant to the claims.
-/

namespace Mactoast

/-- Default constants from `_runner.py` lines 14-19. -/
def DEFAULT_WIDTH : ℚ := 280

def DEFAULT_HEIGHT : ℚ := 80

def DEFAULT_FONT_SIZE : ℚ := 14

def DEFAULT_CORNER_RADIUS : ℚ := 16

def DEFAULT_MIN_WIDTH : ℚ := 100

def DEFAULT_MAX_WIDTH : ℚ := 400

/-- Python `int(q)` truncation toward zero on a rational. -/
def pyTrunc (q : ℚ) : ℤ := if 0 ≤ q then ⌊q⌋ else ⌈q⌉

/-- One constructor per `ToastConfigError` raise-site of `_runner.py`
that the modelled validators can reach, carrying the data the Python
error message interpolates. -/
inductive Err where
  | colorNotHash (param : String) (got : String)
  | colorHexLen (param : String) (got : String)
  | colorTupleLen (param : String) (got : Nat)
  | colorCompNotNum (param : String) (i : Nat) (typeName : String)
  | colorCompRange (param : String) (i : Nat) (got : ℚ)
  | colorBadType (param : String) (typeName : String)
  | positionTupleLen (got : Nat)
  | positionCompNotNum (i : Nat) (typeName : String)
  | positionUnknown (got : String)
  | windowLevelUnknown (got : String)
  | numericRange (name : String) (lo hi got : ℚ)
  | autoSizeWithWidth
  | autoSizeWithHeight
  | minGtMax (mn mx : ℚ)
  | minWithoutAutoSize
  | maxWithoutAutoSize
  | fadeExceeds (total display : ℚ)
  | soundUnknown (got : String)
  | soundFileNotFound (got : String)
  | soundBadExt (got : String)
  | emptyMessage
  | checkNonBlocking
  deriving DecidableEq, Repr

/-- A Python value appearing as a tuple component: a number (int/float,
modelled as `ℚ`) or something else, remembered by its type name. -/
inductive PyVal where
  | num (q : ℚ)
  | nonNum (typeName : String)
  deriving DecidableEq, Repr

/-- A Python value passed as a color: a string, a tuple/list of
components, or a value of any other type. -/
inductive PyColor where
  | str (s : String)
  | tup (comps : List PyVal)
  | other (typeName : String)
  deriving DecidableEq, Repr

/-- The component loop of `_validate_color` (lines 67-75): each component
must be a number and lie in [0.0, 1.0]. -/
def validateColorComps (param : String) : Nat → List PyVal → Except Err Unit
  | _, [] => .ok ()
  | i, .nonNum t :: _ => .error (.colorCompNotNum param i t)
  | i, .num v :: rest =>
    if ¬(0 ≤ v ∧ v ≤ 1) then .error (.colorCompRange param i v)
    else validateColorComps param (i + 1) rest

/-- Python `s.startswith(c)` for a one-character needle, over the
string's character list (the core `String.startsWith` does not reduce in
the kernel). -/
def strStartsWith (s : String) (c : Char) : Bool := s.data.head? == some c

/-- `_validate_color` (lines 47-80): hex strings are checked only for the
leading `#` and a remaining length of 6 or 8; tuples must have 3 or 4
numeric components each in [0.0, 1.0]. -/
def validate_color (color : PyColor) (param : String) : Except Err Unit :=
  match color with
  | .str s =>
    if ¬ strStartsWith s '#' then .error (.colorNotHash param s)
    else
      let hex_part := s.data.drop 1
      if hex_part.length ≠ 6 ∧ hex_part.length ≠ 8 then .error (.colorHexLen param s)
      else .ok ()
  | .tup comps =>
    if comps.length ≠ 3 ∧ comps.length ≠ 4 then .error (.colorTupleLen param comps.length)
    else validateColorComps param 0 comps
  | .other t => .error (.colorBadType param t)

/-- `_validate_numeric_range` (lines 124-133); in the model the value is
always a number, so only the range test remains. -/
def validate_numeric_range (value : ℚ) (name : String) (lo hi : ℚ) : Except Err Unit :=
  if ¬(lo ≤ value ∧ value ≤ hi) then .error (.numericRange name lo hi value)
  else .ok ()

/-- Sequencing of two Python statements each of which may raise: the
second runs only when the first did not raise. -/
def chain (a b : Except Err Unit) : Except Err Unit :=
  match a with
  | .error e => .error e
  | .ok _ => b

/-- `_validate_dimensions` (lines 136-186), with the source's check order:
auto-size conflicts, then range checks, then min/max relation, then
min/max-without-auto-size. -/
def validate_dimensions (width height : Option ℚ) (auto_size : Bool)
    (min_width max_width : Option ℚ) : Except Err Unit :=
  chain
    (if auto_size then
      chain (if width.isSome then .error .autoSizeWithWidth else .ok ())
        (if height.isSome then .error .autoSizeWithHeight else .ok ())
    else .ok ()) <|
  chain
    (match width with
    | some w => validate_numeric_range w "width" 50 1000
    | none => .ok ()) <|
  chain
    (match height with
    | some h => validate_numeric_range h "height" 30 500
    | none => .ok ()) <|
  chain
    (match min_width with
    | some mn => validate_numeric_range mn "min_width" 50 1000
    | none => .ok ()) <|
  chain
    (match max_width with
    | some mx => validate_numeric_range mx "max_width" 50 1000
    | none => .ok ()) <|
  chain
    (match min_width, max_width with
    | some mn, some mx => if mn > mx then .error (.minGtMax mn mx) else .ok ()
    | _, _ => .ok ())
    (if ¬ auto_size then
      chain (if min_width.isSome then .error .minWithoutAutoSize else .ok ())
        (if max_width.isSome then .error .maxWithoutAutoSize else .ok ())
    else .ok ())

/-- `_validate_durations` (lines 189-217): range checks, then the
combined-fade rule, which fires only when a display duration is given;
absent fade durations contribute 0 to the total. -/
def validate_durations (display_duration fade_in_duration fade_out_duration : Option ℚ) :
    Except Err Unit :=
  chain
    (match display_duration with
    | some d => validate_numeric_range d "display_duration" (1/10) 60
    | none => .ok ()) <|
  chain
    (match fade_in_duration with
    | some f => validate_numeric_range f "fade_in_duration" 0 5
    | none => .ok ()) <|
  chain
    (match fade_out_duration with
    | some f => validate_numeric_range f "fade_out_duration" 0 5
    | none => .ok ())
    (match display_duration with
    | some d =>
      let total_fade := fade_in_duration.getD 0 + fade_out_duration.getD 0
      if total_fade > d then .error (.fadeExceeds total_fade d) else .ok ()
    | none => .ok ())

/-- `_calculate_auto_size` (lines 283-327), translated literally: glyph
width `0.6 × font_size`, icon space `font_size + 4 + 12`, paddings 40/24,
branch on whether the natural single-line width fits under `max_width`,
floor the height at 44, and derive the corner radius from the floored
height. -/
def calculate_auto_size (message : String) (font_size : ℚ) (icon : Option String)
    (min_width max_width : ℚ) : ℚ × ℚ × ℚ :=
  let avg_char_width := font_size * (6/10)
  let icon_width : ℚ := if icon.isSome then font_size + 4 + 12 else 0
  let horizontal_padding : ℚ := 40
  let vertical_padding : ℚ := 24
  let text_width := (message.length : ℚ) * avg_char_width
  let total_natural_width := text_width + icon_width + horizontal_padding
  let wh :=
    if total_natural_width ≤ max_width then
      (max min_width total_natural_width, font_size * (12/10) + vertical_padding)
    else
      let available_text_width := max_width - icon_width - horizontal_padding
      let chars_per_line : ℤ := max 1 (pyTrunc (available_text_width / avg_char_width))
      let num_lines : ℤ := max 1 (Int.fdiv ((message.length : ℤ) + chars_per_line - 1) chars_per_line)
      (max_width, font_size * (14/10) * (num_lines : ℚ) + vertical_padding)
  let final_height := max 44 wh.2
  let corner_radius := min DEFAULT_CORNER_RADIUS (final_height / 2 - 2)
  (wh.1, final_height, corner_radius)

/-- Uppercase hexadecimal digit character for `n < 16` (Python `X` format). -/
def hexDigitChar (n : ℕ) : Char :=
  if n < 10 then Char.ofNat ('0'.toNat + n) else Char.ofNat ('A'.toNat + n - 10)

/-- Fuel-driven uppercase hexadecimal digits of a natural number,
most significant first (the digits Python's `X` format emits). -/
def natToHexAux : ℕ → ℕ → List Char → List Char
  | 0, _, acc => acc
  | fuel + 1, n, acc =>
    if n < 16 then hexDigitChar n :: acc
    else natToHexAux fuel (n / 16) (hexDigitChar (n % 16) :: acc)

/-- Uppercase hexadecimal digits of a natural number (no padding). -/
def natToHex (n : ℕ) : List Char := natToHexAux (n + 1) n []

/-- Zero-pad a digit list on the left to length 2. -/
def pad2 (l : List Char) : List Char := if l.length < 2 then '0' :: l else l

/-- Python `f"\x7bn:02X\x7d"`: zero-padded to field width 2, sign included
in the width for negative values. -/
def pyFormat02X (n : ℤ) : List Char :=
  if n < 0 then '-' :: natToHex (-n).toNat else pad2 (natToHex n.toNat)

/-- `int(q * 255)` as in `_normalize_color`'s per-channel conversion. -/
def pyToByte (q : ℚ) : ℤ := pyTrunc (q * 255)

/-- `_normalize_color` (lines 264-280): a string is returned unchanged; a
tuple/list has its first 3 (or 4, when longer than 3) components scaled by
255, truncated to int and formatted as `#RRGGBB[AA]`.  `none` models the
paths where the Python code raises (`ValueError`, or `TypeError` from
arithmetic on a non-numeric component). -/
def normalize_color (color : PyColor) : Option String :=
  match color with
  | .str s => some s
  | .tup comps =>
    match comps with
    | .num r :: .num g :: .num b :: rest =>
      let rr := pyFormat02X (pyToByte r)
      let gg := pyFormat02X (pyToByte g)
      let bb := pyFormat02X (pyToByte b)
      match rest with
      | [] => some (String.mk ('#' :: (rr ++ gg ++ bb)))
      | .num a :: _ => some (String.mk ('#' :: (rr ++ gg ++ bb ++ pyFormat02X (pyToByte a))))
      | .nonNum _ :: _ => none
    | _ => none
  | .other _ => none

/-- Value of one hexadecimal digit character, either case. -/
def hexCharVal (c : Char) : Option ℕ :=
  if '0'.toNat ≤ c.toNat ∧ c.toNat ≤ '9'.toNat then some (c.toNat - '0'.toNat)
  else if 'A'.toNat ≤ c.toNat ∧ c.toNat ≤ 'F'.toNat then some (c.toNat - 'A'.toNat + 10)
  else if 'a'.toNat ≤ c.toNat ∧ c.toNat ≤ 'f'.toNat then some (c.toNat - 'a'.toNat + 10)
  else none

/-- Value of a two-digit hexadecimal pair. -/
def hexPairVal (c1 c2 : Char) : Option ℕ := do
  let hi ← hexCharVal c1
  let lo ← hexCharVal c2
  pure (16 * hi + lo)

/-- The decoding direction of the round-trip property, as the claim words
it: read `#RRGGBB` and divide each channel by 255.  (This decoder is part
of the property's statement, not code of the repository.) -/
def parse_hex_rgb (s : String) : Option (ℚ × ℚ × ℚ) :=
  match s.toList with
  | '#' :: c1 :: c2 :: c3 :: c4 :: c5 :: c6 :: [] => do
    let r ← hexPairVal c1 c2
    let g ← hexPairVal c3 c4
    let b ← hexPairVal c5 c6
    pure ((r : ℚ) / 255, (g : ℚ) / 255, (b : ℚ) / 255)
  | _ => none

/-- A Python value passed as a position: a string (covers the
`ToastPosition` enum, a `str` subclass) or a tuple/list of components. -/
inductive PyPosition where
  | str (s : String)
  | tup (comps : List PyVal)
  deriving DecidableEq, Repr

/-- The component loop of `_validate_position` (lines 91-95). -/
def positionComps : Nat → List PyVal → Except Err Unit
  | _, [] => .ok ()
  | i, .nonNum t :: _ => .error (.positionCompNotNum i t)
  | i, .num _ :: rest => positionComps (i + 1) rest

/-- The named position anchors of `ToastPosition` (lines 22-27). -/
def validPositions : List String :=
  ["top-right", "top-left", "bottom-right", "bottom-left", "center"]

/-- `_validate_position` (lines 83-106). -/
def validate_position (pos : PyPosition) : Except Err Unit :=
  match pos with
  | .tup comps =>
    if comps.length ≠ 2 then .error (.positionTupleLen comps.length)
    else positionComps 0 comps
  | .str s =>
    if ¬ validPositions.contains s then .error (.positionUnknown s) else .ok ()

/-- The window levels of `WindowLevel` (lines 30-36). -/
def validLevels : List String :=
  ["normal", "floating", "status", "modal", "max", "screensaver"]

/-- `_validate_window_level` (lines 109-121); the enum case is a `str`
subclass, so a string input covers it. -/
def validate_window_level (level : String) : Except Err Unit :=
  if ¬ validLevels.contains level then .error (.windowLevelUnknown level) else .ok ()

/-- The bundled sound catalog of `_validate_sound` (lines 236-242). -/
def validSounds : List String :=
  ["beep1", "beep2", "beep3", "beep4", "beep5",
   "confirmation1", "confirmation2", "confirmation3", "confirmation4", "confirmation5",
   "pop1", "pop2", "pop3", "scifi1", "scifi2", "scifi3", "click1"]

/-- The recognized audio extensions of `_validate_sound` (line 229). -/
def validSoundExts : List String := [".wav", ".mp3", ".m4a", ".aac", ".aiff", ".caf"]

/-- `_validate_sound` (lines 220-247); the filesystem probe
`os.path.exists` is abstracted as the oracle `fsExists`. -/
def validate_sound (fsExists : String → Bool) (sound : String) : Except Err Unit :=
  if strStartsWith sound '/' then
    if ¬ fsExists sound then .error (.soundFileNotFound sound)
    else if ¬ validSoundExts.any
        (fun e => e.data.isSuffixOf (sound.data.map Char.toLower)) then
      .error (.soundBadExt sound)
    else .ok ()
  else if ¬ validSounds.contains sound then .error (.soundUnknown sound)
  else .ok ()

/-- The keyword parameters of `toast` (lines 330-351) that feed validation
and auto-sizing; `icon` is modelled as `Option String` (its only check in
the source is that it is a string). -/
structure ToastParams where
  message : String
  width : Option ℚ := none
  height : Option ℚ := none
  bg : Option PyColor := none
  position : Option PyPosition := none
  font_size : Option ℚ := none
  text_color : Option PyColor := none
  corner_radius : Option ℚ := none
  display_duration : Option ℚ := none
  fade_out_duration : Option ℚ := none
  fade_in_duration : Option ℚ := none
  window_level : Option String := none
  icon : Option String := none
  auto_size : Bool := false
  min_width : Option ℚ := none
  max_width : Option ℚ := none
  sound : Option String := none
  blocking : Bool := true
  check : Bool := false

/-- The validation sequence of `toast` (lines 383-421) up to but not
including the final check/blocking cross-check, in source order. -/
def toastValidatePre (fsExists : String → Bool) (p : ToastParams) : Except Err Unit :=
  chain (if p.message.data.isEmpty then .error .emptyMessage else .ok ()) <|
  chain (validate_dimensions p.width p.height p.auto_size p.min_width p.max_width) <|
  chain
    (match p.bg with
    | some c => validate_color c "bg"
    | none => .ok ()) <|
  chain
    (match p.text_color with
    | some c => validate_color c "text_color"
    | none => .ok ()) <|
  chain
    (match p.position with
    | some pos => validate_position pos
    | none => .ok ()) <|
  chain
    (match p.window_level with
    | some l => validate_window_level l
    | none => .ok ()) <|
  chain
    (match p.font_size with
    | some f => validate_numeric_range f "font_size" 8 72
    | none => .ok ()) <|
  chain
    (match p.corner_radius with
    | some c => validate_numeric_range c "corner_radius" 0 100
    | none => .ok ()) <|
  chain (validate_durations p.display_duration p.fade_in_duration p.fade_out_duration)
    (match p.sound with
    | some s => validate_sound fsExists s
    | none => .ok ())

/-- The whole validation sequence of `toast` (lines 383-428), ending with
the check/blocking cross-check of lines 424-428.  Everything after it in
the source (executable lookup, process spawning) only runs when this
returns `ok`. -/
def toastValidate (fsExists : String → Bool) (p : ToastParams) : Except Err Unit :=
  chain (toastValidatePre fsExists p)
    (if p.check && !p.blocking then .error .checkNonBlocking else .ok ())

/-- The computational content of `toast` (lines 383-450): run the full
validation, then, under `auto_size`, apply `_calculate_auto_size` to the
message with the defaulted font size and min/max width bounds (lines
432-445).  The spawning of the rendering process with the resulting
dimensions is out of scope. -/
def toast (fsExists : String → Bool) (p : ToastParams) :
    Except Err (Option (ℚ × ℚ × ℚ)) :=
  match toastValidate fsExists p with
  | .error e => .error e
  | .ok _ =>
    if p.auto_size then
      .ok (some (calculate_auto_size p.message (p.font_size.getD DEFAULT_FONT_SIZE) p.icon
        (p.min_width.getD DEFAULT_MIN_WIDTH) (p.max_width.getD DEFAULT_MAX_WIDTH)))
    else
      .ok none

/-- `true` exactly on the error outcome. -/
def isErr : Except Err Unit → Bool
  | .error _ => true
  | .ok _ => false

/-- Hexadecimal digit test, either case. -/
def isHexDigitChar (c : Char) : Bool :=
  c.isDigit || ('A'.toNat ≤ c.toNat && c.toNat ≤ 'F'.toNat)
    || ('a'.toNat ≤ c.toNat && c.toNat ≤ 'f'.toNat)

/-- The acceptance shape claim C4 asserts, following the spec's words: a
string that is `#` followed by 6 or 8 HEXADECIMAL DIGITS, or a 3- or
4-component numeric tuple with every component in [0.0, 1.0].  Written
from the spec for comparison against `validate_color`. -/
def specColorAccepted (color : PyColor) : Bool :=
  match color with
  | .str s =>
    strStartsWith s '#' && ((s.data.drop 1).length == 6 || (s.data.drop 1).length == 8)
      && (s.data.drop 1).all isHexDigitChar
  | .tup comps =>
    (comps.length == 3 || comps.length == 4)
      && comps.all fun v =>
        match v with
        | .num q => decide (0 ≤ q ∧ q ≤ 1)
        | .nonNum _ => false
  | .other _ => false

/-- The acceptance shape `validate_color` actually implements: like
`specColorAccepted` but with no hexadecimal-digit requirement on the
string's characters. -/
def codeColorAccepted (color : PyColor) : Bool :=
  match color with
  | .str s =>
    strStartsWith s '#' && ((s.data.drop 1).length == 6 || (s.data.drop 1).length == 8)
  | .tup comps =>
    (comps.length == 3 || comps.length == 4)
      && comps.all fun v =>
        match v with
        | .num q => decide (0 ≤ q ∧ q ≤ 1)
        | .nonNum _ => false
  | .other _ => false

/-! ## Helper lemmas -/

/-- `isErr` on a raised error. -/
theorem isErr_error (e : Err) : isErr (.error e) = true := rfl

/-- `isErr` on success. -/
theorem isErr_ok : isErr (.ok ()) = false := rfl

/-- `isErr` distributes over statement sequencing. -/
theorem isErr_chain (a b : Except Err Unit) :
    isErr (chain a b) = (isErr a || isErr b) := by
  cases a with
  | error _ => rfl
  | ok _ => rfl

/-- A sequence is `ok` exactly when both statements are. -/
theorem chain_ok_iff (a b : Except Err Unit) :
    chain a b = .ok () ↔ a = .ok () ∧ b = .ok () := by
  cases a with
  | error _ => simp [chain]
  | ok u => cases u; simp [chain]

/-- The possible outcomes of a sequence: the first statement's error, or
the second statement's result. -/
theorem chain_eq_iff (a b : Except Err Unit) (r : Except Err Unit) :
    chain a b = r ↔ (isErr a = true ∧ a = r) ∨ (a = .ok () ∧ b = r) := by
  cases a with
  | error _ => simp [chain, isErr]
  | ok u => cases u; simp [chain, isErr]

/-- A height floored at 44 always puts `height / 2 - 2` above the default
corner radius 16. -/
theorem min16_of_floor44 (x : ℚ) : min (16 : ℚ) (max 44 x / 2 - 2) = 16 := by
  have h : (44 : ℚ) ≤ max 44 x := le_max_left _ _
  rw [min_eq_left]
  linarith

/-! ## Claim theorems -/

/-- C1 (counterexample): with `min_width = 100 > max_width = 50` — a
combination the validator lets through when only `max_width` is supplied,
see `_validate_dimensions` — the auto-sizer returns width 100, which does
not lie in [100, 50]; the claim quantifies over every call, so it fails. -/
theorem auto_size_width_bounds_cex :
    ¬ (100 ≤ (calculate_auto_size "Hi" 14 none 100 50).1 ∧
       (calculate_auto_size "Hi" 14 none 100 50).1 ≤ 50) := by
  have hlen : ("Hi" : String).length = 2 := rfl
  norm_num [calculate_auto_size, DEFAULT_CORNER_RADIUS, hlen]

/-- C1 (amended): whenever `min_width ≤ max_width`, every auto-sizer
result has width within [min_width, max_width]; the height is at least 44
for every call, with no condition on the bounds. -/
theorem auto_size_width_within_bounds (message : String) (font_size : ℚ)
    (icon : Option String) (min_width max_width : ℚ) :
    (min_width ≤ max_width →
      min_width ≤ (calculate_auto_size message font_size icon min_width max_width).1 ∧
      (calculate_auto_size message font_size icon min_width max_width).1 ≤ max_width) ∧
    44 ≤ (calculate_auto_size message font_size icon min_width max_width).2.1 := by
  constructor
  · intro h
    simp only [calculate_auto_size]
    split_ifs with hi hc hc'
    · exact ⟨le_max_left _ _, max_le h hc⟩
    · exact ⟨h, le_refl _⟩
    · exact ⟨le_max_left _ _, max_le h hc'⟩
    · exact ⟨h, le_refl _⟩
  · simp only [calculate_auto_size]
    split_ifs <;> exact le_max_left _ _

/-- C1 (witness): the amended bounds at a concrete input, the width-bound
hypothesis `100 ≤ 400` discharged there. -/
theorem auto_size_width_within_bounds_witness :
    (100 ≤ (calculate_auto_size "Hello, World!" 14 none 100 400).1 ∧
     (calculate_auto_size "Hello, World!" 14 none 100 400).1 ≤ 400) ∧
    44 ≤ (calculate_auto_size "Hello, World!" 14 none 100 400).2.1 :=
  ⟨(auto_size_width_within_bounds "Hello, World!" 14 none 100 400).1 (by norm_num),
   (auto_size_width_within_bounds "Hello, World!" 14 none 100 400).2⟩

/-- C3: the spec's worked scenario: message "Hello, World!" (13
characters), font size 14, no icon, bounds [100, 400] gives width
13 × 8.4 + 40 = 149.2, height floored to 44, corner radius 16. -/
theorem auto_size_hello_world_scenario :
    calculate_auto_size "Hello, World!" 14 none 100 400 = (149.2, 44, 16) := by
  have hlen : ("Hello, World!" : String).length = 13 := rfl
  norm_num [calculate_auto_size, DEFAULT_CORNER_RADIUS, hlen]

/-- C6: the corner radius returned by the auto-sizer equals
`min 16 (height / 2 - 2)` for the returned height, hence never exceeds 16
and always sits at least 2 under half the height. -/
theorem auto_size_corner_radius_formula (message : String) (font_size : ℚ)
    (icon : Option String) (min_width max_width : ℚ) :
    (calculate_auto_size message font_size icon min_width max_width).2.2 =
      min 16 ((calculate_auto_size message font_size icon min_width max_width).2.1 / 2 - 2) ∧
    (calculate_auto_size message font_size icon min_width max_width).2.2 ≤ 16 ∧
    (calculate_auto_size message font_size icon min_width max_width).2.2 ≤
      (calculate_auto_size message font_size icon min_width max_width).2.1 / 2 - 2 := by
  refine ⟨?_, ?_, ?_⟩
  · simp only [calculate_auto_size, DEFAULT_CORNER_RADIUS]
  · simp only [calculate_auto_size, DEFAULT_CORNER_RADIUS]
    exact min_le_left _ _
  · simp only [calculate_auto_size, DEFAULT_CORNER_RADIUS]
    exact min_le_right _ _

/-- C9: because the height is floored at 44, `height / 2 - 2 ≥ 20`, so the
auto-sizer's corner radius is always exactly the default 16. -/
theorem auto_size_corner_radius_always_16 (message : String) (font_size : ℚ)
    (icon : Option String) (min_width max_width : ℚ) :
    (calculate_auto_size message font_size icon min_width max_width).2.2 = 16 := by
  simp only [calculate_auto_size, DEFAULT_CORNER_RADIUS]
  exact min16_of_floor44 _

/-- C2: with a display duration present, validation fails whenever the
fade-in plus fade-out total (absent fades counting 0) exceeds it; and
whenever the total does not exceed it, the combined-fade rule itself never
fires (any failure is then a range error, not a `fadeExceeds`). -/
theorem fade_sum_rule (dd fi fo : Option ℚ) (d : ℚ) (hdd : dd = some d) :
    (d < fi.getD 0 + fo.getD 0 → isErr (validate_durations dd fi fo) = true) ∧
    (fi.getD 0 + fo.getD 0 ≤ d →
      ∀ t dsp, validate_durations dd fi fo ≠ .error (.fadeExceeds t dsp)) := by
  subst hdd
  constructor
  · intro hgt
    cases fi <;> cases fo <;>
      simp only [validate_durations, validate_numeric_range, Option.getD,
        isErr_chain] <;>
      split_ifs <;>
      simp_all [isErr]
  · intro hle t dsp heq
    cases fi <;> cases fo <;>
      revert heq <;>
      simp only [validate_durations, validate_numeric_range, Option.getD, chain] <;>
      split_ifs <;>
      simp_all [chain] <;>
      intros <;>
      linarith

/-- C2 (witness): the rule at a concrete record with fade total 2 > 1. -/
theorem fade_sum_rule_witness :
    isErr (validate_durations (some 1) (some 2) (some 0)) = true :=
  (fade_sum_rule (some 1) (some 2) (some 0) 1 rfl).1 (by norm_num)

/-- C5: the three cross-checks of `_validate_dimensions`: auto-size with
an explicit width or height fails; min/max width without auto-size fails;
and both bounds supplied with `min_width > max_width` fails. -/
theorem dimensions_cross_checks (w h : Option ℚ) (a : Bool) (mn mx : Option ℚ) :
    (a = true → w.isSome ∨ h.isSome →
      isErr (validate_dimensions w h a mn mx) = true) ∧
    (a = false → mn.isSome ∨ mx.isSome →
      isErr (validate_dimensions w h a mn mx) = true) ∧
    (∀ p q, mn = some p → mx = some q → q < p →
      isErr (validate_dimensions w h a mn mx) = true) := by
  refine ⟨?_, ?_, ?_⟩
  · rintro rfl hwh
    rcases hwh with hw | hh
    · rw [Option.isSome_iff_exists] at hw
      obtain ⟨x, rfl⟩ := hw
      simp [validate_dimensions, isErr_chain, isErr_error]
    · rw [Option.isSome_iff_exists] at hh
      obtain ⟨x, rfl⟩ := hh
      cases w <;> simp [validate_dimensions, isErr_chain, isErr_error]
  · rintro rfl hmm
    cases mn <;> cases mx <;>
      simp_all [validate_dimensions, isErr_chain, validate_numeric_range,
        isErr_error, isErr_ok]
  · rintro p q rfl rfl hpq
    simp only [validate_dimensions, isErr_chain, validate_numeric_range,
      Bool.or_eq_true]
    split_ifs <;> simp_all [isErr_error, isErr_ok]

/-- C5 (witness): `min_width > max_width` with both supplied fails. -/
theorem dimensions_cross_checks_witness :
    isErr (validate_dimensions none none true (some 200) (some 100)) = true :=
  (dimensions_cross_checks none none true (some 200) (some 100)).2.2 200 100 rfl rfl
    (by norm_num)

/-- The component loop of `_validate_color` succeeds exactly when every
component is a number in [0, 1], regardless of the running index. -/
theorem validateColorComps_ok (param : String) (comps : List PyVal) : ∀ i : Nat,
    validateColorComps param i comps = .ok () ↔
      (comps.all fun v =>
        match v with
        | .num q => decide (0 ≤ q ∧ q ≤ 1)
        | .nonNum _ => false) = true := by
  induction comps with
  | nil => intro i; simp [validateColorComps]
  | cons v rest ih =>
    intro i
    cases v with
    | nonNum t => simp [validateColorComps]
    | num q =>
      simp only [validateColorComps, List.all_cons]
      split_ifs with hq
      · rw [ih]
        simp [hq]
      · simp [hq]

/-- C4 (counterexample): `"#GGGGGG"` contains no hexadecimal digit after
the `#`, yet `_validate_color` accepts it — the code checks only the
leading `#` and the length, so the claim's "6 or 8 hexadecimal digits" is
not what is enforced. -/
theorem validate_color_hex_digits_cex :
    validate_color (.str "#GGGGGG") "bg" = .ok () ∧
    specColorAccepted (.str "#GGGGGG") = false :=
  ⟨rfl, rfl⟩

/-- C4 (amended): `_validate_color` accepts exactly the strings starting
with `#` whose remainder has length 6 or 8 (the characters themselves are
unchecked), and the 3- or 4-component numeric tuples with every component
in [0.0, 1.0]; every other shape is rejected. -/
theorem validate_color_accepts_iff (c : PyColor) (param : String) :
    validate_color c param = .ok () ↔ codeColorAccepted c = true := by
  cases c with
  | str s =>
    simp only [validate_color, codeColorAccepted]
    split_ifs with h1 h2 <;> simp_all <;> omega
  | tup comps =>
    simp only [validate_color, codeColorAccepted]
    split_ifs with h1
    · simp_all
    · rw [validateColorComps_ok]
      simp_all
      omega
  | other t => simp [validate_color, codeColorAccepted]

/-- C7: with `check = true` and `blocking = false`, the `toast` validation
sequence always fails; when everything before the mode cross-check passes,
the reported error is precisely the check/blocking incompatibility; and
`toast` never reaches the spawning stage (never returns `ok`). -/
theorem check_requires_blocking (fsExists : String → Bool) (p : ToastParams)
    (hc : p.check = true) (hb : p.blocking = false) :
    isErr (toastValidate fsExists p) = true ∧
    (toastValidatePre fsExists p = .ok () →
      toastValidate fsExists p = .error .checkNonBlocking) ∧
    (∀ r, toast fsExists p ≠ .ok r) := by
  have hv : isErr (toastValidate fsExists p) = true := by
    rw [toastValidate, isErr_chain, hc, hb]
    simp [isErr_error]
  refine ⟨hv, ?_, ?_⟩
  · intro hok
    rw [toastValidate, hok, hc, hb]
    rfl
  · intro r heq
    rw [toast] at heq
    revert heq
    cases htv : toastValidate fsExists p with
    | error e => simp
    | ok u => rw [htv] at hv; cases u; simp [isErr] at hv

/-- C7 (witness): a concrete record with `check = true`,
`blocking = false` fails validation. -/
theorem check_requires_blocking_witness :
    isErr (toastValidate (fun _ => false)
      {message := "x", check := true, blocking := false}) = true :=
  (check_requires_blocking (fun _ => false)
    {message := "x", check := true, blocking := false} rfl rfl).1

/-- C10: supplying only `max_width = 50` (below the default
`min_width = 100`) with `auto_size = true` passes validation — the
min/max consistency check runs only when both bounds are explicit — and
the auto-sizer then returns width 100, strictly greater than the supplied
`max_width = 50`. -/
theorem only_max_width_passes_and_overflows :
    toast (fun _ => false) {message := "A", auto_size := true, max_width := some 50} =
      .ok (some (100, 44, 16)) ∧ (50 : ℚ) < 100 := by
  constructor
  · have hv : toastValidate (fun _ => false)
        {message := "A", auto_size := true, max_width := some 50} = .ok () := rfl
    rw [toast, hv]
    have hlen : ("A" : String).length = 1 := rfl
    norm_num [calculate_auto_size, DEFAULT_CORNER_RADIUS, DEFAULT_FONT_SIZE,
      DEFAULT_MIN_WIDTH, hlen]
  · norm_num

set_option maxRecDepth 4000 in
/-- The two-character zero-padded hexadecimal form of a byte has length 2. -/
theorem hexByteLen : ∀ m : ℕ, m < 256 → (pad2 (natToHex m)).length = 2 := by decide

set_option maxRecDepth 4000 in
/-- Reading back the two-character zero-padded hexadecimal form of a byte
recovers the byte. -/
theorem hexBytePair : ∀ m : ℕ, m < 256 →
    (match pad2 (natToHex m) with
     | [c1, c2] => hexPairVal c1 c2
     | _ => none) = some m := by decide

/-- `int(q * 255)` for `q ∈ [0, 1]` lands in [0, 255] and differs from
`q` by at most `1/255` after dividing back by 255. -/
theorem pyToByte_bounds (q : ℚ) (h0 : 0 ≤ q) (h1 : q ≤ 1) :
    0 ≤ pyToByte q ∧ pyToByte q ≤ 255 ∧
    |q - (pyToByte q : ℚ) / 255| ≤ 1 / 255 := by
  unfold pyToByte pyTrunc
  have hq : (0 : ℚ) ≤ q * 255 := by positivity
  rw [if_pos hq]
  have hfl : ((⌊q * 255⌋ : ℤ) : ℚ) ≤ q * 255 := Int.floor_le _
  have hfl2 : q * 255 < ⌊q * 255⌋ + 1 := Int.lt_floor_add_one _
  refine ⟨Int.floor_nonneg.mpr hq, ?_, ?_⟩
  · have h2 : q * 255 ≤ 255 := by linarith
    have h3 : ⌊q * 255⌋ ≤ ⌊(255 : ℚ)⌋ := Int.floor_le_floor h2
    simpa using h3
  · rw [abs_le]
    constructor <;> linarith

/-- A byte value formats under `02X` as exactly two characters, and the
hexadecimal pair reads back to the byte. -/
theorem byte_extract (n : ℤ) (h0 : 0 ≤ n) (h255 : n ≤ 255) :
    ∃ c1 c2, pyFormat02X n = [c1, c2] ∧ hexPairVal c1 c2 = some n.toNat := by
  have hlt : n.toNat < 256 := by omega
  have hlen := hexByteLen n.toNat hlt
  have hpair := hexBytePair n.toNat hlt
  rw [List.length_eq_two] at hlen
  obtain ⟨c1, c2, hc⟩ := hlen
  refine ⟨c1, c2, ?_, ?_⟩
  · rw [pyFormat02X, if_neg (by omega)]
    exact hc
  · rw [hc] at hpair
    exact hpair

/-- C8: for any RGB triple of rationals in [0, 1], `_normalize_color`
produces a `#RRGGBB` string which, decoded back by dividing each channel
by 255 (the decoding the claim describes), recovers each original
component to within 1/255. -/
theorem color_round_trip (r g b : ℚ)
    (hr0 : 0 ≤ r) (hr1 : r ≤ 1) (hg0 : 0 ≤ g) (hg1 : g ≤ 1)
    (hb0 : 0 ≤ b) (hb1 : b ≤ 1) :
    ∃ s r' g' b',
      normalize_color (.tup [.num r, .num g, .num b]) = some s ∧
      parse_hex_rgb s = some (r', g', b') ∧
      |r - r'| ≤ 1 / 255 ∧ |g - g'| ≤ 1 / 255 ∧ |b - b'| ≤ 1 / 255 := by
  obtain ⟨hrn, hrx, hrd⟩ := pyToByte_bounds r hr0 hr1
  obtain ⟨hgn, hgx, hgd⟩ := pyToByte_bounds g hg0 hg1
  obtain ⟨hbn, hbx, hbd⟩ := pyToByte_bounds b hb0 hb1
  obtain ⟨a1, a2, ha, hap⟩ := byte_extract (pyToByte r) hrn hrx
  obtain ⟨b1, b2, hbf, hbp⟩ := byte_extract (pyToByte g) hgn hgx
  obtain ⟨c1, c2, hcf, hcp⟩ := byte_extract (pyToByte b) hbn hbx
  refine ⟨String.mk ('#' :: (pyFormat02X (pyToByte r) ++ pyFormat02X (pyToByte g) ++
      pyFormat02X (pyToByte b))),
    ((pyToByte r).toNat : ℚ) / 255, ((pyToByte g).toNat : ℚ) / 255,
    ((pyToByte b).toNat : ℚ) / 255, ?_, ?_, ?_, ?_, ?_⟩
  · rfl
  · rw [ha, hbf, hcf]
    simp only [parse_hex_rgb, String.toList, List.cons_append, List.nil_append]
    rw [hap, hbp, hcp]
    rfl
  · rw [show (((pyToByte r).toNat : ℚ)) = ((pyToByte r : ℤ) : ℚ) by
      norm_cast
      omega]
    exact hrd
  · rw [show (((pyToByte g).toNat : ℚ)) = ((pyToByte g : ℤ) : ℚ) by
      norm_cast
      omega]
    exact hgd
  · rw [show (((pyToByte b).toNat : ℚ)) = ((pyToByte b : ℤ) : ℚ) by
      norm_cast
      omega]
    exact hbd

/-- C8 (witness): the round trip at the concrete triple (1/2, 0, 1). -/
theorem color_round_trip_witness :
    ∃ s r' g' b',
      normalize_color (.tup [.num (1/2), .num 0, .num 1]) = some s ∧
      parse_hex_rgb s = some (r', g', b') ∧
      |(1/2 : ℚ) - r'| ≤ 1 / 255 ∧ |(0 : ℚ) - g'| ≤ 1 / 255 ∧
      |(1 : ℚ) - b'| ≤ 1 / 255 :=
  color_round_trip (1/2) 0 1 (by norm_num) (by norm_num) (by norm_num)
    (by norm_num) (by norm_num) (by norm_num)

end Mactoast
